import Mathlib

/-!
Shallow embedding of the quick-proj template instantiation engine
(src/main.py) and its configuration decoder, with theorems checking the
natural-language specification against the code.

Modelling conventions:
* A filesystem path is a list of components (`Path`); `parsePath` mirrors
  the Python `Path(str)` constructor by splitting on the separator.
* The filesystem (`FS`) is the set of existing directories and files.
  `mkdir` mirrors `Path.mkdir()` (non-recursive: fails if the path exists,
  fails if the parent is missing); `rmdir` mirrors `Path.rmdir()` (fails if
  the path is not an existing directory or is non-empty).
* External collaborators are oracles passed as arguments: `which` models
  `shutil.which`, `spawn` models `subprocess.run` (a spawn either launches,
  possibly writing files, or fails to launch; a missing working directory is
  itself a launch failure, as in `subprocess`), and `generateProjectTitle`
  models `utils.generate_project_title` (indexed by call count).
* Python exceptions become the `PyErr` type; the implicit Python exception
  chaining (`raise` during handling of another exception) is made explicit
  in the `context` field of `rmdirError`.
-/

namespace QuickProj

/-- A filesystem path, as a list of components (Python `pathlib.Path`). -/
abbrev Path := List String

/-- Split a character list on the path separator, accumulating the current
(reversed) component. -/
def splitOnSlash : List Char → List Char → List String
  | [], cur => [String.mk cur.reverse]
  | c :: rest, cur =>
    if c = '/' then String.mk cur.reverse :: splitOnSlash rest []
    else splitOnSlash rest (c :: cur)

/-- Mirrors `Path(s)`: split a string path into its components. -/
def parsePath (s : String) : Path :=
  (splitOnSlash s.toList []).filter (fun c => c != "")

/-- The filesystem: the set of existing directories and existing files. -/
structure FS where
  dirs : List Path
  files : List Path
deriving Repr, DecidableEq

/-- Mirrors `Path.exists()`: true if the path is an existing directory or an
existing file. -/
def pathExists (fs : FS) (p : Path) : Bool :=
  fs.dirs.contains p || fs.files.contains p

/-- The parent directory of a path. -/
def parentOf (p : Path) : Path := p.dropLast

inductive MkdirErr where
  /-- `FileExistsError`: the target path already exists. -/
  | fileExists
  /-- `FileNotFoundError`: the parent directory does not exist
  (`mkdir` is non-recursive). -/
  | parentMissing
deriving Repr, DecidableEq

/-- Mirrors `Path.mkdir()` (non-recursive, no exist_ok). -/
def mkdir (fs : FS) (p : Path) : Except MkdirErr FS :=
  if pathExists fs p then .error .fileExists
  else if fs.dirs.contains (parentOf p) then
    .ok ⟨fs.dirs ++ [p], fs.files⟩
  else .error .parentMissing

/-- Mirrors `Path.rmdir()`: raises `OSError` when the path is not an
existing directory, or when the directory is not empty. -/
def rmdir (fs : FS) (p : Path) : Except Unit FS :=
  if !(fs.dirs.contains p) then .error ()
  else if (fs.dirs ++ fs.files).any (fun q => q != p && p.isPrefixOf q) then
    .error ()
  else .ok ⟨fs.dirs.filter (fun q => q != p), fs.files⟩

/-- Model of `EditorOptions` (src/main.py line 25): the command used to open a text
editor. -/
structure EditorOptions where
  command : List String
deriving Repr, DecidableEq

/-- Model of `ProjectTemplate` (src/main.py line 33): a named sequence of commands
used to instantiate a project. -/
structure ProjectTemplate where
  name : String
  description : Option String
  editor_override : Option EditorOptions
  init_steps : List (List String)
deriving Repr, DecidableEq

/-- Model of `Config` (src/main.py line 67). -/
structure Config where
  instantiation_directory : String
  templates : List ProjectTemplate
  editor : EditorOptions
deriving Repr, DecidableEq

/-- Model of `QuickProject.__init__` (src/main.py line 117): the engine state built
from a validated Config. -/
structure QuickProject where
  instantiation_directory_path : Path
  templates : List ProjectTemplate
  editor : EditorOptions
deriving Repr, DecidableEq

/-- Mirrors the constructor body of `QuickProject.__init__`. -/
def QuickProject.ofConfig (config : Config) : QuickProject :=
  ⟨parsePath config.instantiation_directory, config.templates, config.editor⟩

/-- Python exceptions raised (or chained) by `instantiate_project`. -/
inductive PyErr where
  /-- `ProjectTemplateNotExists`, with the full message built at
  src/main.py lines 136-140. -/
  | templateNotExists (message : String)
  /-- `FileExistsError` from `project_root_path.mkdir()`, annotated (via
  `add_note`) with the name of the template being instantiated. -/
  | fileExists (templateName : String)
  /-- `FileNotFoundError` from `mkdir` when the instantiation directory is
  missing (not caught by the code, propagates raw). -/
  | mkdirParentMissing (path : Path)
  /-- `IndexError` from `step[0]` on an empty step. -/
  | indexError
  /-- The exception raised by `subprocess.run` when a command fails to
  launch (executable not found / missing working directory). -/
  | spawnFailure (command : List String)
  /-- `OSError` from `project_root_path.rmdir()` during cleanup, annotated
  with the manual-cleanup note; `context` is the exception being handled
  when it was raised (Python implicit exception chaining). -/
  | rmdirError (path : Path) (context : Option PyErr)

/-- Outcome of one `subprocess.run` call: the process launched (and wrote
the given files in the filesystem), or it failed to launch. -/
inductive SpawnOutcome where
  | launched (writes : List Path)
  | failed

/-- One attempted `subprocess.run` call, as observed by the process
launcher: argument vector, working directory, and whether output was
captured. -/
structure SpawnAttempt where
  args : List String
  cwd : Path
  captureOutput : Bool
deriving Repr, DecidableEq

/-- The observable outcome of one `instantiate_project` call: the returned
value or raised exception, the final filesystem, the sequence of attempted
process launches, the number of calls to `generate_project_title`, and the
number of iterations of the name-collision while loop. -/
structure InstOutcome where
  result : Except PyErr (Option Path)
  fs : FS
  spawns : List SpawnAttempt
  genCalls : Nat
  nameAttempts : Nat

/-- Mirrors the template lookup loop at src/main.py lines 129-133: linear
scan, first match wins. -/
def findTemplate : List ProjectTemplate → String → Option ProjectTemplate
  | [], _ => none
  | t :: rest, templateName =>
    if templateName == t.name then some t else findTemplate rest templateName

/-- Mirrors the `ProjectTemplateNotExists` message built at src/main.py
lines 136-140, including the comma-joined quoted list of valid names. -/
def templateNotExistsMessage (templateName : String)
    (templates : List ProjectTemplate) : String :=
  "Project template \"" ++ templateName ++
    "\" does not exist, check your config.\nValid template names are: " ++
    String.intercalate "," (templates.map (fun t => "\"" ++ t.name ++ "\""))

/-- Mirrors the while loop at src/main.py lines 146-149: while the candidate
path exists and `attempts < maxAttempts`, increment `attempts`. The loop
body never draws a new candidate, so the `exists()` part of the condition is
re-evaluated on the same path each iteration. Returns the final value of
`attempts`. -/
def collisionLoop (fs : FS) (candidate : Path) (attempts maxAttempts : Nat) :
    Nat :=
  if h : pathExists fs candidate = true ∧ attempts < maxAttempts then
    collisionLoop fs candidate (attempts + 1) maxAttempts
  else attempts
termination_by maxAttempts - attempts
decreasing_by omega

/-- Mirrors the step-execution for loop at src/main.py lines 167-193.
For each step: resolve the executable with `which` (falling back to the
literal token), build the command, attempt `subprocess.run` with the
project root as working directory and captured output. A launch failure is
caught; the code then attempts `rmdir` on the project root: if the removal
succeeds the loop CONTINUES with the next step (there is no re-raise in the
source), and if the removal fails the `OSError` is raised with the launch
failure as its chained context. Returns (result, final filesystem,
attempted spawns). -/
def runSteps (which : String → Option String)
    (spawn : List String → Path → SpawnOutcome) (root : Path) :
    List (List String) → FS → List SpawnAttempt →
    Except PyErr (Option Path) × FS × List SpawnAttempt
  | [], fs, acc => (.ok none, fs, acc)
  | step :: rest, fs, acc =>
    match step with
    | [] => (.error .indexError, fs, acc)
    | s0 :: sArgs =>
      let executable :=
        match which s0 with
        | none => s0
        | some exe => exe
      let command := executable :: sArgs
      let acc := acc ++ [⟨command, root, true⟩]
      let outcome :=
        if fs.dirs.contains root then spawn command root else .failed
      match outcome with
      | .launched writes =>
        runSteps which spawn root rest ⟨fs.dirs, fs.files ++ writes⟩ acc
      | .failed =>
        match rmdir fs root with
        | .ok fsAfter => runSteps which spawn root rest fsAfter acc
        | .error _ =>
          (.error (.rmdirError root (some (.spawnFailure command))), fs, acc)

/-- Mirrors `QuickProject.instantiate_project` (src/main.py lines 123-193).
`which`, `spawn` and `generateProjectTitle` are the external collaborators;
`fs` is the filesystem at call time. The Python function returns `None` on
success, modelled as `Except.ok none`. -/
def QuickProject.instantiate_project (qp : QuickProject)
    (which : String → Option String)
    (spawn : List String → Path → SpawnOutcome)
    (generateProjectTitle : Nat → String) (fs : FS)
    (template_name : String) (project_name : Option String) : InstOutcome :=
  match findTemplate qp.templates template_name with
  | none =>
    { result := .error (.templateNotExists
        (templateNotExistsMessage template_name qp.templates)),
      fs := fs, spawns := [], genCalls := 0, nameAttempts := 0 }
  | some pt =>
    let resolved :=
      match project_name with
      | none =>
        let candidate := generateProjectTitle 0
        let attempts :=
          collisionLoop fs (qp.instantiation_directory_path ++ [candidate])
            0 1000
        (candidate, 1, attempts)
      | some n => (n, 0, 0)
    let projectName := resolved.1
    let genCalls := resolved.2.1
    let nameAttempts := resolved.2.2
    let project_root_path := qp.instantiation_directory_path ++ [projectName]
    match mkdir fs project_root_path with
    | .error .fileExists =>
      { result := .error (.fileExists pt.name), fs := fs, spawns := [],
        genCalls := genCalls, nameAttempts := nameAttempts }
    | .error .parentMissing =>
      { result := .error (.mkdirParentMissing project_root_path), fs := fs,
        spawns := [], genCalls := genCalls, nameAttempts := nameAttempts }
    | .ok fsCreated =>
      let stepsOut := runSteps which spawn project_root_path pt.init_steps
        fsCreated []
      { result := stepsOut.1, fs := stepsOut.2.1, spawns := stepsOut.2.2,
        genCalls := genCalls, nameAttempts := nameAttempts }

/-! ### Configuration decoding

Models `Config.model_validate_json(text, strict=True)` (src/main.py line
251) over an already-parsed JSON value, following pydantic v2 semantics for
these model declarations: strict mode (no type coercion); extra object
fields are ignored (default `extra` behaviour — the models declare no
`extra` configuration); `name`, `description` and `init_steps` are required
(`description` is `Optional[str]` with no default, so it must be present
but may be null); `editor_override` defaults to `None`; the
`instantiation_directory` field validator
`_check_instantiation_directory_exists` (src/main.py lines 107-114) runs
after decoding the string and raises unless `Path(value).exists()`. -/

/-- A parsed JSON value. -/
inductive Json where
  | null
  | bool (b : Bool)
  | num (n : Int)
  | str (s : String)
  | arr (items : List Json)
  | obj (fields : List (String × Json))

/-- Look up a field of a JSON object. -/
def getField : List (String × Json) → String → Option Json
  | [], _ => none
  | (k, v) :: rest, key => if k == key then some v else getField rest key

/-- A pydantic validation failure. -/
inductive DecodeErr where
  /-- A value does not have the declared type (strict mode: no coercion). -/
  | typeError
  /-- A required field is absent. -/
  | missingField (name : String)
  /-- A `ValueError` raised by a field validator, carrying the offending
  value (here: the missing instantiation directory). -/
  | valueError (value : String)
deriving Repr, DecidableEq

/-- Decode a JSON value as a `str` field (strict). -/
def decodeStr : Json → Except DecodeErr String
  | .str s => .ok s
  | _ => .error .typeError

/-- Decode a JSON value as an `Optional[str]` field (strict). -/
def decodeOptStr : Json → Except DecodeErr (Option String)
  | .null => .ok none
  | .str s => .ok (some s)
  | _ => .error .typeError

/-- Decode the items of a JSON array as a `List[str]` (strict). -/
def decodeStrItems : List Json → Except DecodeErr (List String)
  | [] => .ok []
  | .str s :: rest => (decodeStrItems rest).map (fun ss => s :: ss)
  | _ :: _ => .error .typeError

/-- Decode a JSON value as a `List[str]` field (strict). -/
def decodeListStr : Json → Except DecodeErr (List String)
  | .arr items => decodeStrItems items
  | _ => .error .typeError

/-- Decode the items of a JSON array as a `List[List[str]]` (strict). -/
def decodeStepsItems : List Json → Except DecodeErr (List (List String))
  | [] => .ok []
  | j :: rest =>
    match decodeListStr j with
    | .error e => .error e
    | .ok s => (decodeStepsItems rest).map (fun ss => s :: ss)

/-- Decode a JSON value as the `init_steps` field (`List[List[str]]`). -/
def decodeSteps : Json → Except DecodeErr (List (List String))
  | .arr items => decodeStepsItems items
  | _ => .error .typeError

/-- Decode a JSON value as an `EditorOptions` model. Extra fields are
ignored; `command` is required. -/
def decodeEditorOptions : Json → Except DecodeErr EditorOptions
  | .obj fields =>
    match getField fields "command" with
    | none => .error (.missingField "command")
    | some j => (decodeListStr j).map EditorOptions.mk
  | _ => .error .typeError

/-- Decode a JSON value as an `Optional[EditorOptions]` field. -/
def decodeOptEditorOptions (j : Json) :
    Except DecodeErr (Option EditorOptions) :=
  match j with
  | .null => .ok none
  | j => (decodeEditorOptions j).map some

/-- Decode a JSON value as a `ProjectTemplate` model. Extra fields are
ignored; `name`, `description` and `init_steps` are required;
`editor_override` defaults to none. -/
def decodeProjectTemplate : Json → Except DecodeErr ProjectTemplate
  | .obj fields =>
    match getField fields "name" with
    | none => .error (.missingField "name")
    | some nameJ =>
      match decodeStr nameJ with
      | .error e => .error e
      | .ok name =>
        match getField fields "description" with
        | none => .error (.missingField "description")
        | some descJ =>
          match decodeOptStr descJ with
          | .error e => .error e
          | .ok desc =>
            match (getField fields "editor_override").elim
                (Except.ok none) decodeOptEditorOptions with
            | .error e => .error e
            | .ok override =>
              match getField fields "init_steps" with
              | none => .error (.missingField "init_steps")
              | some stepsJ =>
                match decodeSteps stepsJ with
                | .error e => .error e
                | .ok steps => .ok ⟨name, desc, override, steps⟩
  | _ => .error .typeError

/-- Decode the items of a JSON array as a `List[ProjectTemplate]`. -/
def decodeTemplateItems : List Json → Except DecodeErr (List ProjectTemplate)
  | [] => .ok []
  | j :: rest =>
    match decodeProjectTemplate j with
    | .error e => .error e
    | .ok t => (decodeTemplateItems rest).map (fun ts => t :: ts)

/-- Decode a JSON value as the `templates` field. -/
def decodeTemplates : Json → Except DecodeErr (List ProjectTemplate)
  | .arr items => decodeTemplateItems items
  | _ => .error .typeError

/-- Mirrors the field validator `_check_instantiation_directory_exists`
(src/main.py lines 107-114): raise `ValueError` unless
`Path(value).exists()`; otherwise return the value unchanged. -/
def checkInstantiationDirectoryExists (fs : FS) (instantiation_directory :
    String) : Except DecodeErr String :=
  if pathExists fs (parsePath instantiation_directory) then
    .ok instantiation_directory
  else .error (.valueError instantiation_directory)

/-- Models `Config.model_validate_json(text, strict=True)` on a parsed JSON
value, against the filesystem `fs` (consulted by the field validator).
Extra top-level fields are ignored (pydantic default); all three declared
fields are required. -/
def Config.model_validate (fs : FS) (j : Json) : Except DecodeErr Config :=
  match j with
  | .obj fields =>
    match getField fields "instantiation_directory" with
    | none => .error (.missingField "instantiation_directory")
    | some dirJ =>
      match decodeStr dirJ with
      | .error e => .error e
      | .ok dirRaw =>
        match checkInstantiationDirectoryExists fs dirRaw with
        | .error e => .error e
        | .ok dir =>
          match getField fields "templates" with
          | none => .error (.missingField "templates")
          | some tsJ =>
            match decodeTemplates tsJ with
            | .error e => .error e
            | .ok ts =>
              match getField fields "editor" with
              | none => .error (.missingField "editor")
              | some edJ =>
                match decodeEditorOptions edJ with
                | .error e => .error e
                | .ok ed => .ok ⟨dir, ts, ed⟩
  | _ => .error .typeError

/-! ### Concrete fixtures used by witnesses and counterexamples -/

/-- Oracle for `shutil.which` that resolves nothing. -/
def whichNone : String → Option String := fun _ => none

/-- Process launcher where every spawn fails to launch. -/
def spawnAllFail : List String → Path → SpawnOutcome := fun _ _ => .failed

/-- Process launcher where every spawn launches and writes nothing. -/
def spawnAllLaunch : List String → Path → SpawnOutcome :=
  fun _ _ => .launched []

/-- Process launcher where the command `a` launches and writes one file
inside the project directory, and every other command fails to launch. -/
def spawnWriteThenFail : List String → Path → SpawnOutcome :=
  fun command _ =>
    if command = ["a"] then .launched [["tmp", "x", "p1", "f"]] else .failed

/-- Title generator that always produces the candidate `proj`. -/
def genProj : Nat → String := fun _ => "proj"

/-- Filesystem with the instantiation directory `/tmp/x` present. -/
def fsTX : FS := ⟨[["tmp"], ["tmp", "x"]], []⟩

/-- Filesystem where `/tmp/x/proj` (the generated candidate) exists. -/
def fsTXproj : FS := ⟨[["tmp"], ["tmp", "x"], ["tmp", "x", "proj"]], []⟩

/-- Filesystem where `/tmp/x/p1` already exists. -/
def fsTXp1 : FS := ⟨[["tmp"], ["tmp", "x"], ["tmp", "x", "p1"]], []⟩

/-- Filesystem where `/tmp/x` exists as a FILE, not a directory. -/
def fsFileX : FS := ⟨[["tmp"]], [["tmp", "x"]]⟩

def editorCode : EditorOptions := ⟨["code"]⟩

/-- The template `T` of the end-to-end example: one step `echo hi`. -/
def tplT : ProjectTemplate := ⟨"T", none, none, [["echo", "hi"]]⟩

/-- A two-step template whose steps are the commands `a` and `b`. -/
def tplAB : ProjectTemplate := ⟨"T", none, none, [["a"], ["b"]]⟩

/-- A one-step template whose single step is the command `a`. -/
def tplA : ProjectTemplate := ⟨"T", none, none, [["a"]]⟩

/-- A template with zero init steps. -/
def tplE : ProjectTemplate := ⟨"E", none, none, []⟩

def qpT : QuickProject := ⟨["tmp", "x"], [tplT], editorCode⟩
def qpAB : QuickProject := ⟨["tmp", "x"], [tplAB], editorCode⟩
def qpA : QuickProject := ⟨["tmp", "x"], [tplA], editorCode⟩
def qpE : QuickProject := ⟨["tmp", "x"], [tplE], editorCode⟩

/-! ### Helper lemmas -/

/-- When the (single, never-redrawn) candidate path exists, the
name-collision while loop spins until `attempts` reaches `maxAttempts`. -/
theorem collisionLoop_of_exists (fs : FS) (candidate : Path)
    (h : pathExists fs candidate = true) :
    ∀ (d attempts maxAttempts : Nat), maxAttempts - attempts ≤ d →
      collisionLoop fs candidate attempts maxAttempts =
        if attempts < maxAttempts then maxAttempts else attempts := by
  intro d
  induction d with
  | zero =>
    intro a m hd
    have ham : ¬a < m := by omega
    rw [collisionLoop, dif_neg (by simp [ham]), if_neg ham]
  | succ d ih =>
    intro a m hd
    by_cases ham : a < m
    · rw [collisionLoop, dif_pos ⟨h, ham⟩, ih (a + 1) m (by omega),
        if_pos ham]
      split <;> omega
    · rw [collisionLoop, dif_neg (by simp [ham]), if_neg ham]

/-- Any `rmdirError` produced by the step-execution loop carries a launch
failure as its chained context: the cleanup `OSError` is only ever raised
while a `spawnFailure` is being handled. -/
theorem runSteps_rmdirError_context (which : String → Option String)
    (spawn : List String → Path → SpawnOutcome) (root : Path) :
    ∀ (steps : List (List String)) (fs : FS) (acc : List SpawnAttempt)
      (p : Path) (ctx : Option PyErr),
      (runSteps which spawn root steps fs acc).1 =
        .error (.rmdirError p ctx) →
      ∃ command, ctx = some (.spawnFailure command) := by
  intro steps
  induction steps with
  | nil =>
    intro fs acc p ctx h
    simp [runSteps] at h
  | cons step rest ih =>
    intro fs acc p ctx h
    match step with
    | [] => simp [runSteps] at h
    | s0 :: sArgs =>
      simp only [runSteps] at h
      split at h
      · exact ih _ _ _ _ h
      · split at h
        · exact ih _ _ _ _ h
        · simp only [PyErr.rmdirError.injEq, Except.error.injEq] at h
          exact ⟨_, h.2.symm⟩

/-! ### Claims C1-C3 -/

/-- Claim C1 (code bug): the spec says a launch failure at step k aborts
the remaining steps and propagates the original failure after attempting to
remove the project directory. The code (src/main.py lines 178-193) removes
the directory but, when the removal succeeds, falls through and CONTINUES
the step loop: on a two-step template whose first step fails to launch, the
second step is still attempted (two spawn attempts), and the error that
finally escapes is the cleanup `OSError` of the second iteration — not the
original launch failure; on a one-step template whose step fails to launch,
the call even returns success, swallowing the launch failure entirely. -/
theorem claim1_launch_failure_not_aborted :
    ((qpAB.instantiate_project whichNone spawnAllFail genProj fsTX "T"
        (some "p1")).spawns.length = 2) ∧
    ((qpAB.instantiate_project whichNone spawnAllFail genProj fsTX "T"
        (some "p1")).result =
      .error (.rmdirError ["tmp", "x", "p1"]
        (some (.spawnFailure ["b"])))) ∧
    ((qpA.instantiate_project whichNone spawnAllFail genProj fsTX "T"
        (some "p1")).result = .ok none) :=
  ⟨rfl, rfl, rfl⟩

/-- Claim C2 (code bug): the spec requires a fresh candidate name on every
retry and a `NameExhaustionError` once the 1000-attempt bound is exhausted.
The code (src/main.py lines 142-151) calls `generate_project_title` exactly
once, re-checks that same name 1000 times in a loop whose body only
increments a counter, then proceeds to `mkdir` on the still-colliding path
and fails with `FileExistsError` (no `NameExhaustionError` exists in the
code). Evaluated here on a directory already containing the one generated
candidate. -/
theorem claim2_no_fresh_candidate :
    ((qpT.instantiate_project whichNone spawnAllFail genProj fsTXproj "T"
        none).result = .error (.fileExists "T")) ∧
    ((qpT.instantiate_project whichNone spawnAllFail genProj fsTXproj "T"
        none).genCalls = 1) ∧
    ((qpT.instantiate_project whichNone spawnAllFail genProj fsTXproj "T"
        none).nameAttempts = 1000) := by
  refine ⟨rfl, rfl, ?_⟩
  show collisionLoop fsTXproj ["tmp", "x", "proj"] 0 1000 = 1000
  rw [collisionLoop_of_exists fsTXproj ["tmp", "x", "proj"] rfl 1000 0 1000
    (by omega)]
  norm_num

/-- Claim C3: whenever an `instantiate_project` call fails with the cleanup
`OSError` raised while removing the project directory, that error carries
the primary launch failure as its chained context (Python implicit
exception chaining): the secondary cleanup failure is reported in addition
to — never instead of — a primary `spawnFailure`. -/
theorem claim3_cleanup_never_masks_primary (qp : QuickProject)
    (which : String → Option String)
    (spawn : List String → Path → SpawnOutcome) (gen : Nat → String)
    (fs : FS) (template_name : String) (project_name : Option String)
    (p : Path) (ctx : Option PyErr)
    (h : (qp.instantiate_project which spawn gen fs template_name
        project_name).result = .error (.rmdirError p ctx)) :
    ∃ command, ctx = some (.spawnFailure command) := by
  unfold QuickProject.instantiate_project at h
  split at h
  · simp at h
  · dsimp only at h
    split at h
    · simp at h
    · simp at h
    · exact runSteps_rmdirError_context which spawn _ _ _ _ _ _ h

/-- Concrete instance of C3: first step writes a file, second step fails to
launch, cleanup `rmdir` fails on the non-empty directory; the context of
the propagated error is the step-2 launch failure. -/
theorem claim3_cleanup_never_masks_primary_witness :
    ∃ command, (some (PyErr.spawnFailure ["b"]) : Option PyErr) =
      some (.spawnFailure command) :=
  claim3_cleanup_never_masks_primary qpAB whichNone spawnWriteThenFail
    genProj fsTX "T" (some "p1") ["tmp", "x", "p1"]
    (some (.spawnFailure ["b"])) rfl

/-! ### Claims C4-C6 -/

/-- JSON for the editor options of the end-to-end example. -/
def jEditorCode : Json := .obj [("command", .arr [.str "code"])]

/-- JSON for the template `T` of the end-to-end example. -/
def jTplT : Json := .obj [("name", .str "T"), ("description", .null),
  ("init_steps", .arr [.arr [.str "echo", .str "hi"]])]

/-- The three top-level Config fields of the end-to-end example. -/
def configFields3 : List (String × Json) :=
  [("instantiation_directory", .str "/tmp/x"),
   ("templates", .arr [jTplT]), ("editor", jEditorCode)]

/-- The decoded Config of the end-to-end example. -/
def cfgT : Config := ⟨"/tmp/x", [tplT], editorCode⟩

/-- Counterexample to claim C4: a top-level object carrying a fourth field
`unexpected` beyond the three Config fields decodes successfully — the
extra field is silently ignored (pydantic default extra handling; the
models configure no unknown-field rejection and `strict=True` only
disables coercion), contradicting the claim that decoding must fail. -/
theorem claim4_counterexample :
    Config.model_validate fsTX
      (.obj (configFields3 ++ [("unexpected", .str "zzz")])) = .ok cfgT :=
  rfl

/-- Looking up a key that differs from the key of an appended field is
unaffected by the appended field. -/
theorem getField_append_singleton (fields : List (String × Json))
    (k key : String) (v : Json) (hne : key ≠ k) :
    getField (fields ++ [(k, v)]) key = getField fields key := by
  induction fields with
  | nil =>
    simp only [List.nil_append, getField]
    rw [if_neg (by simpa using fun h => hne h.symm)]
  | cons p rest ih =>
    obtain ⟨k2, v2⟩ := p
    simp only [List.cons_append, getField]
    split
    · rfl
    · exact ih

/-- Claim C4, amended: extra top-level fields are silently ignored, not
rejected — appending any field whose name is none of the three Config field
names leaves the decoding result unchanged (in particular it never turns a
successful decode into a failure). -/
theorem claim4_extra_field_ignored (fs : FS)
    (fields : List (String × Json)) (k : String) (v : Json)
    (h1 : k ≠ "instantiation_directory") (h2 : k ≠ "templates")
    (h3 : k ≠ "editor") :
    Config.model_validate fs (.obj (fields ++ [(k, v)])) =
      Config.model_validate fs (.obj fields) := by
  unfold Config.model_validate
  dsimp only
  rw [getField_append_singleton _ _ _ _ (Ne.symm h1),
    getField_append_singleton _ _ _ _ (Ne.symm h2),
    getField_append_singleton _ _ _ _ (Ne.symm h3)]

/-- Concrete instance of the amended C4: adding the field `unexpected` to
the end-to-end example config changes nothing about its decoding. -/
theorem claim4_extra_field_ignored_witness :
    Config.model_validate fsTX
        (.obj (configFields3 ++ [("unexpected", .str "zzz")])) =
      Config.model_validate fsTX (.obj configFields3) :=
  claim4_extra_field_ignored fsTX configFields3 "unexpected" (.str "zzz")
    (by decide) (by decide) (by decide)

/-- Claim C5 counterexample: on a zero-step template with a fresh explicit
name the call succeeds, but the success value is `None` (the Python
function body has no return statement), not the root path of the created
project as the claim states. -/
theorem claim5_counterexample :
    ((qpE.instantiate_project whichNone spawnAllFail genProj fsTX "E"
        (some "p1")).result = .ok none) ∧
    ((qpE.instantiate_project whichNone spawnAllFail genProj fsTX "E"
        (some "p1")).result ≠
      .ok (some (["tmp", "x", "p1"] : Path))) := by
  refine ⟨rfl, ?_⟩
  intro h
  rw [show (qpE.instantiate_project whichNone spawnAllFail genProj fsTX "E"
      (some "p1")).result = .ok none from rfl] at h
  simp at h

/-- Claim C5, amended: on a template with zero `init_steps` and a fresh
explicit project name (with the instantiation directory present),
`instantiate_project` creates the project directory, spawns no process, and
returns successfully — but the success value is `None` (the created root
path is only printed, never returned). -/
theorem claim5_zero_steps_success (qp : QuickProject)
    (which : String → Option String)
    (spawn : List String → Path → SpawnOutcome) (gen : Nat → String)
    (fs : FS) (template_name : String) (project_name : String)
    (pt : ProjectTemplate)
    (hfind : findTemplate qp.templates template_name = some pt)
    (hsteps : pt.init_steps = [])
    (hfree : pathExists fs
      (qp.instantiation_directory_path ++ [project_name]) = false)
    (hparent : fs.dirs.contains qp.instantiation_directory_path = true) :
    ((qp.instantiate_project which spawn gen fs template_name
        (some project_name)).result = .ok none) ∧
    ((qp.instantiate_project which spawn gen fs template_name
        (some project_name)).spawns = []) ∧
    ((qp.instantiate_project which spawn gen fs template_name
        (some project_name)).fs.dirs.contains
      (qp.instantiation_directory_path ++ [project_name]) = true) := by
  unfold QuickProject.instantiate_project
  rw [hfind]
  dsimp only
  have hmk : mkdir fs (qp.instantiation_directory_path ++ [project_name]) =
      .ok ⟨fs.dirs ++ [qp.instantiation_directory_path ++ [project_name]],
        fs.files⟩ := by
    unfold mkdir
    rw [if_neg (by simp [hfree]), if_pos]
    unfold parentOf
    rw [List.dropLast_concat]
    exact hparent
  rw [hmk, hsteps]
  refine ⟨rfl, rfl, ?_⟩
  show (fs.dirs ++ [qp.instantiation_directory_path ++ [project_name]]
    ).contains (qp.instantiation_directory_path ++ [project_name]) = true
  exact List.elem_eq_true_of_mem (by simp)

/-- Concrete instance of the amended C5. -/
theorem claim5_zero_steps_success_witness :
    ((qpE.instantiate_project whichNone spawnAllFail genProj fsTX "E"
        (some "p1")).result = .ok none) ∧
    ((qpE.instantiate_project whichNone spawnAllFail genProj fsTX "E"
        (some "p1")).spawns = []) ∧
    ((qpE.instantiate_project whichNone spawnAllFail genProj fsTX "E"
        (some "p1")).fs.dirs.contains (["tmp", "x"] ++ ["p1"]) = true) :=
  claim5_zero_steps_success qpE whichNone spawnAllFail genProj fsTX "E" "p1"
    tplE rfl rfl rfl rfl

/-- JSON for a template whose `init_steps` contains an EMPTY inner list. -/
def jTplEmptyStep : Json := .obj [("name", .str "T"), ("description", .null),
  ("init_steps", .arr [.arr []])]

/-- Config JSON containing the empty-step template. -/
def jConfigEmptyStep : Json :=
  .obj [("instantiation_directory", .str "/tmp/x"),
    ("templates", .arr [jTplEmptyStep]), ("editor", jEditorCode)]

/-- The Config decoded from `jConfigEmptyStep`. -/
def cfgEmptyStep : Config := ⟨"/tmp/x", [⟨"T", none, none, [[]]⟩],
  editorCode⟩

/-- Counterexample to claim C6: a config whose template has an empty inner
command sequence decodes successfully — the decoded Config violates the
claimed length-at-least-one invariant (nothing in the code enforces it;
`init_steps` is declared as a plain `List[List[str]]`). -/
theorem claim6_counterexample :
    Config.model_validate fsTX jConfigEmptyStep = .ok cfgEmptyStep ∧
    cfgEmptyStep.templates.all
      (fun t => t.init_steps.all (fun s => 1 ≤ s.length)) = false :=
  ⟨rfl, rfl⟩

/-- Encode a value of `init_steps` type back into JSON. -/
def encodeSteps (steps : List (List String)) : Json :=
  .arr (steps.map (fun s => .arr (s.map Json.str)))

/-- The JSON of a template with the given name and init steps. -/
def mkTemplateJson (name : String) (steps : List (List String)) : Json :=
  .obj [("name", .str name), ("description", .null),
    ("init_steps", encodeSteps steps)]

/-- Decoding inverts encoding for a list of strings. -/
theorem decodeStrItems_map_str (s : List String) :
    decodeStrItems (s.map Json.str) = .ok s := by
  induction s with
  | nil => rfl
  | cons a rest ih => simp [decodeStrItems, ih, Except.map]

/-- Decoding inverts encoding for a list of lists of strings. -/
theorem decodeStepsItems_map (steps : List (List String)) :
    decodeStepsItems (steps.map (fun s => Json.arr (s.map Json.str))) =
      .ok steps := by
  induction steps with
  | nil => rfl
  | cons s rest ih =>
    simp [decodeStepsItems, decodeListStr, decodeStrItems_map_str, ih,
      Except.map]

/-- Claim C6, amended: decoding imposes NO lower bound on the length of the
inner command sequences — every list of lists of strings, empty inner lists
included, decodes verbatim into the `init_steps` of a template; the
length-at-least-one invariant is not enforced anywhere. -/
theorem claim6_no_minimum_step_length (name : String)
    (steps : List (List String)) :
    decodeProjectTemplate (mkTemplateJson name steps) =
      .ok ⟨name, none, none, steps⟩ := by
  unfold decodeProjectTemplate mkTemplateJson encodeSteps
  simp [getField, decodeStr, decodeOptStr, decodeSteps, decodeStepsItems_map]

/-! ### Claims C7-C10 -/

/-- Claim C7: with an explicit project name whose target directory already
exists, `instantiate_project` fails with the `FileExistsError` annotated
with the name of the template that triggered creation, executes no step
(no spawn is attempted), and leaves the filesystem — in particular the
contents of the pre-existing directory — untouched. -/
theorem claim7_existing_directory_fails_untouched (qp : QuickProject)
    (which : String → Option String)
    (spawn : List String → Path → SpawnOutcome) (gen : Nat → String)
    (fs : FS) (template_name : String) (project_name : String)
    (pt : ProjectTemplate)
    (hfind : findTemplate qp.templates template_name = some pt)
    (hexists : pathExists fs
      (qp.instantiation_directory_path ++ [project_name]) = true) :
    ((qp.instantiate_project which spawn gen fs template_name
        (some project_name)).result = .error (.fileExists pt.name)) ∧
    ((qp.instantiate_project which spawn gen fs template_name
        (some project_name)).fs = fs) ∧
    ((qp.instantiate_project which spawn gen fs template_name
        (some project_name)).spawns = []) := by
  unfold QuickProject.instantiate_project
  rw [hfind]
  dsimp only
  have hmk : mkdir fs (qp.instantiation_directory_path ++ [project_name]) =
      .error .fileExists := by
    unfold mkdir
    rw [if_pos hexists]
  rw [hmk]
  exact ⟨rfl, rfl, rfl⟩

/-- Concrete instance of C7: re-instantiating the explicit name `p1` into
the existing `/tmp/x/p1`. -/
theorem claim7_existing_directory_fails_untouched_witness :
    ((qpT.instantiate_project whichNone spawnAllFail genProj fsTXp1 "T"
        (some "p1")).result = .error (.fileExists "T")) ∧
    ((qpT.instantiate_project whichNone spawnAllFail genProj fsTXp1 "T"
        (some "p1")).fs = fsTXp1) ∧
    ((qpT.instantiate_project whichNone spawnAllFail genProj fsTXp1 "T"
        (some "p1")).spawns = []) :=
  claim7_existing_directory_fails_untouched qpT whichNone spawnAllFail
    genProj fsTXp1 "T" "p1" tplT rfl rfl

/-- Counterexample to claim C8: a Config whose `instantiation_directory`
exists as a FILE — hence does not exist as a directory — passes validation,
because the validator only calls `Path(value).exists()`. The claim requires
validation to fail whenever the path does not exist as a directory. -/
theorem claim8_counterexample :
    Config.model_validate fsFileX (.obj configFields3) = .ok cfgT ∧
    fsFileX.dirs.contains (parsePath "/tmp/x") = false :=
  ⟨rfl, rfl⟩

/-- Claim C8, amended: the validator fails exactly when the
`instantiation_directory` path does not exist AT ALL (a path existing as a
non-directory file passes, since the check is `Path(value).exists()`);
every successfully decoded Config has an existing `instantiation_directory`
path, and the decoder never creates it (the check is read-only — it
returns the value unchanged and touches no filesystem state). -/
theorem claim8_missing_directory_rejected :
    (∀ (fs : FS) (d : String),
      (∃ e, checkInstantiationDirectoryExists fs d = .error e) ↔
        pathExists fs (parsePath d) = false) ∧
    (∀ (fs : FS) (j : Json) (c : Config),
      Config.model_validate fs j = .ok c →
        pathExists fs (parsePath c.instantiation_directory) = true) := by
  constructor
  · intro fs d
    unfold checkInstantiationDirectoryExists
    by_cases h : pathExists fs (parsePath d) = true
    · simp [h]
    · simp [h]
  · intro fs j c h
    cases j <;> simp only [Config.model_validate] at h <;>
      try exact absurd h (by simp)
    next fields =>
      split at h
      · exact absurd h (by simp)
      next dirJ hdirJ =>
        split at h
        · exact absurd h (by simp)
        next dirRaw hdirRaw =>
          split at h
          · exact absurd h (by simp)
          next dir hcheck =>
            unfold checkInstantiationDirectoryExists at hcheck
            split at hcheck
            · next hex =>
              have hdir : dir = dirRaw := by
                simpa using hcheck.symm
              split at h
              · exact absurd h (by simp)
              next tsJ htsJ =>
                split at h
                · exact absurd h (by simp)
                next ts hts =>
                  split at h
                  · exact absurd h (by simp)
                  next edJ hedJ =>
                    split at h
                    · exact absurd h (by simp)
                    next ed hed =>
                      have hc : c = ⟨dir, ts, ed⟩ := by
                        simpa using h.symm
                      subst hc
                      subst hdir
                      exact hex
            · exact absurd hcheck (by simp)

/-- Concrete instance of the amended C8: the end-to-end example config
decodes, so its instantiation directory path exists. -/
theorem claim8_missing_directory_rejected_witness :
    pathExists fsTX (parsePath "/tmp/x") = true :=
  claim8_missing_directory_rejected.2 fsTX (.obj configFields3) cfgT rfl

/-- The Config of the end-to-end example (claim C9). -/
def cfg9 : Config := ⟨"/tmp/x", [tplT], editorCode⟩

/-- Claim C9: end-to-end — on the Config with instantiation directory
`/tmp/x`, one template `T` with `init_steps = [[echo, hi]]` and default
editor `code`, instantiating `T` with the explicit name `p1` (on a
filesystem where `/tmp/x` exists and `/tmp/x/p1` does not) creates the
directory `/tmp/x/p1`, raises no error, and launches exactly one process
with argument vector `[echo, hi]`, working directory `/tmp/x/p1`, and
captured output. Hypotheses pin the environment of the example: the
search-path resolver leaves `echo` unresolved (so the literal token is
used), and the spawned command launches. -/
theorem claim9_end_to_end (which : String → Option String)
    (spawn : List String → Path → SpawnOutcome) (gen : Nat → String)
    (writes : List Path) (hwhich : which "echo" = none)
    (hspawn : spawn ["echo", "hi"] ["tmp", "x", "p1"] = .launched writes) :
    (((QuickProject.ofConfig cfg9).instantiate_project which spawn gen fsTX
        "T" (some "p1")).result = .ok none) ∧
    (((QuickProject.ofConfig cfg9).instantiate_project which spawn gen fsTX
        "T" (some "p1")).spawns =
      [⟨["echo", "hi"], ["tmp", "x", "p1"], true⟩]) ∧
    (((QuickProject.ofConfig cfg9).instantiate_project which spawn gen fsTX
        "T" (some "p1")).fs.dirs.contains ["tmp", "x", "p1"] = true) := by
  have hrun : runSteps which spawn ["tmp", "x", "p1"] [["echo", "hi"]]
      ⟨[["tmp"], ["tmp", "x"], ["tmp", "x", "p1"]], []⟩ [] =
      (.ok none,
        ⟨[["tmp"], ["tmp", "x"], ["tmp", "x", "p1"]], [] ++ writes⟩,
        [⟨["echo", "hi"], ["tmp", "x", "p1"], true⟩]) := by
    rw [runSteps, hwhich]
    dsimp only
    rw [if_pos (show ((⟨[["tmp"], ["tmp", "x"], ["tmp", "x", "p1"]], []⟩ :
        FS)).dirs.contains ["tmp", "x", "p1"] = true from rfl), hspawn]
    rfl
  have hmain : (QuickProject.ofConfig cfg9).instantiate_project which spawn
      gen fsTX "T" (some "p1") =
      { result := .ok none,
        fs := ⟨[["tmp"], ["tmp", "x"], ["tmp", "x", "p1"]], [] ++ writes⟩,
        spawns := [⟨["echo", "hi"], ["tmp", "x", "p1"], true⟩],
        genCalls := 0, nameAttempts := 0 } := by
    rw [show QuickProject.ofConfig cfg9 = qpT from rfl]
    unfold QuickProject.instantiate_project
    rw [show findTemplate qpT.templates "T" = some tplT from rfl]
    dsimp only
    rw [show qpT.instantiation_directory_path ++ ["p1"] =
      ["tmp", "x", "p1"] from rfl]
    rw [show mkdir fsTX ["tmp", "x", "p1"] =
      .ok ⟨[["tmp"], ["tmp", "x"], ["tmp", "x", "p1"]], []⟩ from rfl]
    dsimp only
    rw [show tplT.init_steps = [["echo", "hi"]] from rfl, hrun]
  rw [hmain]
  exact ⟨rfl, rfl, rfl⟩

/-- Concrete instance of C9 with a fully concrete environment. -/
theorem claim9_end_to_end_witness :
    (((QuickProject.ofConfig cfg9).instantiate_project whichNone
        spawnAllLaunch genProj fsTX "T" (some "p1")).result = .ok none) ∧
    (((QuickProject.ofConfig cfg9).instantiate_project whichNone
        spawnAllLaunch genProj fsTX "T" (some "p1")).spawns =
      [⟨["echo", "hi"], ["tmp", "x", "p1"], true⟩]) ∧
    (((QuickProject.ofConfig cfg9).instantiate_project whichNone
        spawnAllLaunch genProj fsTX "T" (some "p1")).fs.dirs.contains
      ["tmp", "x", "p1"] = true) :=
  claim9_end_to_end whichNone spawnAllLaunch genProj [] rfl rfl

/-- Claim C10: template lookup is a linear scan in declaration order — if
index `i` holds the first template whose name matches, lookup returns that
template (first occurrence wins on duplicate names); and when no template
matches, `instantiate_project` fails with `ProjectTemplateNotExists` whose
message lists the configured template names (comma-joined, quoted). -/
theorem claim10_lookup_first_match (ts : List ProjectTemplate)
    (template_name : String) :
    (∀ (i : Nat) (hi : i < ts.length),
      (ts.get ⟨i, hi⟩).name = template_name →
      (∀ (k : Nat) (hk : k < i),
        (ts.get ⟨k, hk.trans hi⟩).name ≠ template_name) →
      findTemplate ts template_name = some (ts.get ⟨i, hi⟩)) ∧
    (findTemplate ts template_name = none →
      ∀ (qp : QuickProject) (which : String → Option String)
        (spawn : List String → Path → SpawnOutcome) (gen : Nat → String)
        (fs : FS) (project_name : Option String), qp.templates = ts →
        (qp.instantiate_project which spawn gen fs template_name
            project_name).result =
          .error (.templateNotExists
            (templateNotExistsMessage template_name ts))) := by
  constructor
  · induction ts with
    | nil => intro i hi; exact absurd hi (by simp)
    | cons t rest ih =>
      intro i hi hname hfirst
      cases i with
      | zero =>
        have : t.name = template_name := hname
        simp [findTemplate, this]
      | succ i =>
        have h0 : t.name ≠ template_name := by
          have := hfirst 0 (Nat.succ_pos i)
          simpa using this
        have hbeq : (template_name == t.name) = false := by
          simp only [beq_eq_false_iff_ne, ne_eq]
          exact fun e => h0 e.symm
        simp only [findTemplate, hbeq, Bool.false_eq_true, if_false]
        exact ih i (by simpa using hi) hname
          (fun k hk => hfirst (k + 1) (Nat.succ_lt_succ hk))
  · intro hnone qp which spawn gen fs project_name hqp
    unfold QuickProject.instantiate_project
    rw [hqp, hnone]

/-- Templates with the same name `X` but different descriptions. -/
def tplX1 : ProjectTemplate := ⟨"X", some "first", none, []⟩
def tplX2 : ProjectTemplate := ⟨"X", some "second", none, []⟩

/-- Concrete instance of C10: with duplicate names the FIRST template wins,
and lookup of an absent name yields the error listing the configured
names. -/
theorem claim10_lookup_first_match_witness :
    findTemplate [tplX1, tplX2] "X" = some tplX1 ∧
    ((qpT.instantiate_project whichNone spawnAllFail genProj fsTX "Z"
        none).result =
      .error (.templateNotExists (templateNotExistsMessage "Z" [tplT]))) :=
  ⟨(claim10_lookup_first_match [tplX1, tplX2] "X").1 0 (by simp) rfl
      (fun k hk => absurd hk (Nat.not_lt_zero k)),
    (claim10_lookup_first_match [tplT] "Z").2 rfl qpT whichNone spawnAllFail
      genProj fsTX none rfl⟩

end QuickProj
